import Mathlib

/-!
Verification development for the `ProblemC/cache.h` header of the repository.

The repository consists of a single C++ header that forward-declares three
opaque struct types and declares one function, `cache_get`, together with a
documentation comment stating its contract. There is no implementation.

The development has two layers:
1. an embedding of the header itself (its exact lines, and its parsed
   top-level declarations), translated directly from `src/ProblemC/cache.h`;
2. a model of the documented contract of `cache_get`, necessarily modelled
   from the spec and the doc comment, because the repository holds no
   implementation of the function.
-/

namespace ProblemC

/-- A C++ parameter type as it appears in the header: a raw pointer `T*`
or a reference to const `const T&`. -/
inductive CParamType where
  | ptr (target : String)
  | constRef (target : String)
deriving DecidableEq

/-- A named parameter of a C++ function declaration. -/
structure CParam where
  pname : String
  ptype : CParamType
deriving DecidableEq

/-- A C++ function signature as declared: return type, name, parameters, and
whether the declaration carries a `noexcept` specifier. -/
structure FunSig where
  retType : String
  name : String
  params : List CParam
  noexceptSpec : Bool
deriving DecidableEq

/-- A top-level declaration of the header: a struct declaration, whose member
list is `none` for a bare forward declaration, or a function declaration,
whose body is `none` for a bodiless prototype. -/
inductive CDecl where
  | structDecl (sname : String) (members : Option (List String))
  | funDecl (sig : FunSig) (body : Option Unit)
deriving DecidableEq

/-- The exact lines of `src/ProblemC/cache.h`, in order. The file ends with a
trailing empty line. -/
def cacheHeaderLines : List String :=
  ["// cache.h",
   "/*",
   "Task:",
   "Generate documentation for cache_get that is helpful for API consumers (callers), especially around side effects and safety.",
   "*/",
   "struct Cache;",
   "struct Key;",
   "struct Value;",
   "",
   "/**",
   " * @brief Retrieves the cached value associated with the specified key.",
   " * Contract:",
   " * - May perform network I/O if the entry is missing or stale and requires refresh.",
   " * - May enqueue background work for asynchronous refresh operations.",
   " * - May take locks internally to ensure thread safety during access.",
   " */",
   "bool cache_get(Cache* c, const Key& k, Value* out);",
   ""]

/-- The single line of the header holding the declaration of `cache_get`
(line 17 of the file). -/
def cacheGetDeclLine : String :=
  "bool cache_get(Cache* c, const Key& k, Value* out);"

/-- The signature of `cache_get` exactly as declared on line 17 of the
header: `bool cache_get(Cache* c, const Key& k, Value* out);`. The
declaration carries no `noexcept` specifier. -/
def cacheGetSig : FunSig :=
  ⟨"bool", "cache_get",
   [⟨"c", CParamType.ptr "Cache"⟩,
    ⟨"k", CParamType.constRef "Key"⟩,
    ⟨"out", CParamType.ptr "Value"⟩],
   false⟩

/-- The parsed top-level declarations of the header, in order: three opaque
struct forward declarations (`struct Cache;`, `struct Key;`, `struct Value;`,
lines 6 to 8) and the bodiless prototype of `cache_get` (line 17). -/
def cacheHeaderDecls : List CDecl :=
  [CDecl.structDecl "Cache" none,
   CDecl.structDecl "Key" none,
   CDecl.structDecl "Value" none,
   CDecl.funDecl cacheGetSig none]

/-- Whether a top-level declaration is a function declaration. -/
def CDecl.isFun : CDecl → Bool
  | CDecl.funDecl _ _ => true
  | _ => false

/-- Whether a struct declaration exposes any members (a bare forward
declaration exposes none). -/
def CDecl.hasMembers : CDecl → Bool
  | CDecl.structDecl _ (some _) => true
  | _ => false

/-- Whether a function declaration comes with a body (a prototype has none). -/
def CDecl.hasBody : CDecl → Bool
  | CDecl.funDecl _ (some _) => true
  | _ => false

/-- The first parameter of `cache_get` as declared: `Cache* c`. -/
def cacheGetCParam : CParam := cacheGetSig.params.get ⟨0, by decide⟩

/-- The second parameter of `cache_get` as declared: `const Key& k`. -/
def cacheGetKParam : CParam := cacheGetSig.params.get ⟨1, by decide⟩

/-- The third parameter of `cache_get` as declared: `Value* out`. -/
def cacheGetOutParam : CParam := cacheGetSig.params.get ⟨2, by decide⟩

/-- Whether a parameter of the given C++ type lets the callee modify the
object the caller passed: writing through a raw pointer is allowed, writing
through a reference to const is not. -/
def paramWritable : CParamType → Bool
  | CParamType.ptr _ => true
  | CParamType.constRef _ => false

/-- Whether an argument of the given C++ type may be a null pointer at the
type level: a raw pointer type admits null, a reference does not. -/
def admitsNull : CParamType → Bool
  | CParamType.ptr _ => true
  | CParamType.constRef _ => false

/-- Whether the declared signature permits an exceptional exit: a declaration
without a `noexcept` specifier does not exclude one. -/
def mayThrow (s : FunSig) : Bool := !s.noexceptSpec

/-- Modelled from the spec: the repository holds no definition of `Value` or
of cache entries. Following the contract wording (a looked-up entry is either
fresh or stale), an entry is a value together with an abstract freshness
flag; the spec leaves the staleness condition undefined. -/
structure Entry (ν : Type) where
  value : ν
  fresh : Bool
deriving DecidableEq

/-- Modelled from the spec: the repository holds no definition of `Cache`
beyond a forward declaration. The contract only mentions which entry, if any,
a key maps to, so a cache state is a partial map from keys to entries. -/
structure CacheModel (κ ν : Type) where
  entries : κ → Option (Entry ν)

/-- Modelled from the spec: the caller-visible outcome of one call to
`cache_get`, together with the side effects the documented contract mentions:
the returned boolean, the value written through `out` (`none` when nothing
was written), whether network I/O was performed, whether an asynchronous
background refresh was enqueued, whether internal locks were taken, and
whether the call wrote through the key reference. -/
structure CallResult (ν : Type) where
  ret : Bool
  out : Option ν
  usedNetwork : Bool
  enqueuedRefresh : Bool
  tookLocks : Bool
  wroteKey : Bool
deriving DecidableEq

/-- The entry for `k` is missing from the cache, or present but not fresh. -/
def entryMissingOrStale {κ ν : Type} (c : CacheModel κ ν) (k : κ) : Prop :=
  c.entries k = none ∨ ∃ e, c.entries k = some e ∧ e.fresh = false

/-- Modelled from the spec: the documented contract of `cache_get`, which has
no implementation in the repository. A call result `r` conforms to the
contract for cache state `c` and key `k` when:
* if `k` is found and the entry is fresh, the cached value is written through
  `out` and the call returns true (spec section 4, header line 11);
* network I/O happens only for a missing or stale entry (header line 13);
* a background refresh is enqueued only for an entry that requires refresh,
  which per header line 13 and the spec means a missing or stale one
  (header line 14);
* the returned boolean says exactly whether a usable value was produced
  (spec section 4);
* the call writes through the `k` reference only if the declared type of that
  parameter permitted writing, which `const Key&` does not (header line 17).
The contract deliberately leaves everything else open: in particular it never
constrains `tookLocks` (header line 15 only says locks may be taken). -/
def cache_get_contract {κ ν : Type} (c : CacheModel κ ν) (k : κ)
    (r : CallResult ν) : Prop :=
  (∀ e, c.entries k = some e → e.fresh = true →
    r.out = some e.value ∧ r.ret = true)
  ∧ (r.usedNetwork = true → entryMissingOrStale c k)
  ∧ (r.enqueuedRefresh = true → entryMissingOrStale c k)
  ∧ (r.ret = true ↔ ∃ v, r.out = some v)
  ∧ (r.wroteKey = true → paramWritable cacheGetKParam.ptype = true)

/-- A concrete empty cache over natural-number keys and values. -/
def cEmpty : CacheModel Nat Nat := ⟨fun _ => none⟩

/-- A concrete cache holding a fresh entry with value 7 at key 0. -/
def cFresh : CacheModel Nat Nat :=
  ⟨fun k => if k = 0 then some ⟨7, true⟩ else none⟩

/-- A concrete cache holding a stale entry with value 5 at key 0. -/
def cStale : CacheModel Nat Nat :=
  ⟨fun k => if k = 0 then some ⟨5, false⟩ else none⟩

/-- A concrete call result for a fresh hit with value 7: returns true, writes
7 through `out`, and performs no side effect. -/
def rHit : CallResult Nat := ⟨true, some 7, false, false, false, false⟩

/-- The three failure situations the spec names as indistinguishable through
the interface: the key is absent, the network refresh failed, or the entry is
stale and cannot be refreshed. -/
inductive FailureKind where
  | notFound
  | networkFailure
  | staleUnrefreshable
deriving DecidableEq

/-- Modelled from the spec: a concrete cache state exhibiting each failure
kind (key 0 is the key consulted). -/
def failureCache : FailureKind → CacheModel Nat Nat
  | FailureKind.notFound => cEmpty
  | FailureKind.networkFailure => cEmpty
  | FailureKind.staleUnrefreshable => cStale

/-- Modelled from the spec: a contract-conforming failing call result for
each failure kind. The key is absent and no refresh is attempted; or the key
is absent, synchronous network I/O is attempted and fails; or the entry is
stale, refresh is attempted over the network and enqueued, and no usable
value results. -/
def failureResult : FailureKind → CallResult Nat
  | FailureKind.notFound => ⟨false, none, false, false, false, false⟩
  | FailureKind.networkFailure => ⟨false, none, true, false, false, false⟩
  | FailureKind.staleUnrefreshable => ⟨false, none, true, true, false, false⟩

/-- What the caller of `cache_get` observes from one call: the returned
boolean and the value written through `out`, and nothing else. -/
def callerObservable {ν : Type} (r : CallResult ν) : Bool × Option ν :=
  (r.ret, r.out)

theorem found_fresh_not_missingOrStale {κ ν : Type} (c : CacheModel κ ν)
    (k : κ) (e : Entry ν) (he : c.entries k = some e) (hf : e.fresh = true) :
    ¬ entryMissingOrStale c k := by
  rintro (hnone | ⟨e2, he2, hf2⟩)
  · rw [he] at hnone
    exact Option.noConfusion hnone
  · rw [he] at he2
    injection he2 with hee
    rw [← hee] at hf2
    rw [hf] at hf2
    exact Bool.noConfusion hf2

theorem contract_of_missingOrStale {κ ν : Type} (c : CacheModel κ ν) (k : κ)
    (hms : entryMissingOrStale c k) (un er tl : Bool) :
    cache_get_contract c k ⟨false, none, un, er, tl, false⟩ := by
  refine ⟨?_, fun _ => hms, fun _ => hms, by simp, fun h => Bool.noConfusion h⟩
  intro e he hf
  exact absurd hms (found_fresh_not_missingOrStale c k e he hf)

theorem contract_of_found {κ ν : Type} (c : CacheModel κ ν) (k : κ)
    (e : Entry ν) (he : c.entries k = some e) (tl : Bool) :
    cache_get_contract c k ⟨true, some e.value, false, false, tl, false⟩ := by
  refine ⟨?_, fun h => Bool.noConfusion h, fun h => Bool.noConfusion h,
    by simp, fun h => Bool.noConfusion h⟩
  intro e2 he2 _
  rw [he] at he2
  injection he2 with hee
  rw [← hee]
  exact ⟨rfl, rfl⟩

theorem contract_cFresh : cache_get_contract cFresh 0 rHit := by
  have h := contract_of_found cFresh 0 ⟨7, true⟩ rfl false
  exact h

theorem contract_failure (fk : FailureKind) :
    cache_get_contract (failureCache fk) 0 (failureResult fk) := by
  cases fk
  · exact contract_of_missingOrStale cEmpty 0 (Or.inl rfl) false false false
  · exact contract_of_missingOrStale cEmpty 0 (Or.inl rfl) true false false
  · exact contract_of_missingOrStale cStale 0
      (Or.inr ⟨⟨5, false⟩, rfl, rfl⟩) true true false

/-- Claim C1: for every cache `c` and key `k`, if `k` is found in `c` and the
entry is fresh, then any call result conforming to the documented contract of
`cache_get` writes the cached value through `out` and returns true. -/
theorem cache_get_found_fresh (κ ν : Type) (c : CacheModel κ ν) (k : κ)
    (e : Entry ν) (hfound : c.entries k = some e) (hfresh : e.fresh = true)
    (r : CallResult ν) (hr : cache_get_contract c k r) :
    r.out = some e.value ∧ r.ret = true :=
  hr.1 e hfound hfresh

/-- Witness for C1: on the cache holding a fresh entry with value 7 at key 0,
the conforming result `rHit` writes 7 through `out` and returns true. -/
theorem cache_get_found_fresh_witness :
    rHit.out = some 7 ∧ rHit.ret = true :=
  cache_get_found_fresh Nat Nat cFresh 0 ⟨7, true⟩ rfl rfl rHit contract_cFresh

/-- Claim C2: the boolean returned by `cache_get` is the sole error signal of
the interface. The declared return type is `bool`, the returned boolean says
exactly whether a usable value was produced, and the three failure kinds the
spec names (not found, network failure, stale but unrefreshable) all admit
contract-conforming calls whose caller-visible observation (returned boolean
and value written through `out`) is identical, so no result of the call
distinguishes them. -/
theorem cache_get_sole_error_signal :
    cacheGetSig.retType = "bool"
    ∧ (∀ (κ ν : Type) (c : CacheModel κ ν) (k : κ) (r : CallResult ν),
        cache_get_contract c k r → (r.ret = true ↔ ∃ v, r.out = some v))
    ∧ (∀ fk : FailureKind,
        cache_get_contract (failureCache fk) 0 (failureResult fk)
        ∧ (failureResult fk).ret = false)
    ∧ (∀ fk1 fk2 : FailureKind,
        callerObservable (failureResult fk1)
          = callerObservable (failureResult fk2)) := by
  refine ⟨rfl, ?_, ?_, ?_⟩
  · intro κ ν c k r hr
    exact hr.2.2.2.1
  · intro fk
    refine ⟨contract_failure fk, ?_⟩
    cases fk <;> rfl
  · intro fk1 fk2
    cases fk1 <;> cases fk2 <;> rfl

/-- Claim C3: the only operation the header exposes is the single function
`cache_get` with exactly the signature `bool cache_get(Cache*, const Key&,
Value*)`; no other function is declared, and no struct declaration exposes
any member. -/
theorem cache_header_single_operation :
    cacheHeaderDecls.filter CDecl.isFun = [CDecl.funDecl cacheGetSig none]
    ∧ cacheGetSig.retType = "bool"
    ∧ cacheGetSig.name = "cache_get"
    ∧ cacheGetSig.params.map CParam.ptype
        = [CParamType.ptr "Cache", CParamType.constRef "Key",
           CParamType.ptr "Value"]
    ∧ cacheHeaderDecls.all (fun d => !(CDecl.hasMembers d)) = true :=
  ⟨rfl, rfl, rfl, rfl, rfl⟩

/-- Claim C4: when the entry for `k` is missing or stale the contract admits
a call that performs network I/O and enqueues an asynchronous background
refresh; when `k` is found and fresh, no contract-conforming call performs
network I/O or enqueues a refresh. -/
theorem cache_get_side_effects_missing_or_stale (κ ν : Type)
    (c : CacheModel κ ν) (k : κ) :
    (entryMissingOrStale c k →
      ∃ r, cache_get_contract c k r
        ∧ r.usedNetwork = true ∧ r.enqueuedRefresh = true)
    ∧ (∀ e, c.entries k = some e → e.fresh = true →
        ∀ r, cache_get_contract c k r →
          r.usedNetwork = false ∧ r.enqueuedRefresh = false) := by
  constructor
  · intro hms
    exact ⟨⟨false, none, true, true, false, false⟩,
      contract_of_missingOrStale c k hms true true false, rfl, rfl⟩
  · intro e he hf r hr
    have hnm := found_fresh_not_missingOrStale c k e he hf
    constructor
    · cases hn : r.usedNetwork
      · rfl
      · exact absurd (hr.2.1 hn) hnm
    · cases hn : r.enqueuedRefresh
      · rfl
      · exact absurd (hr.2.2.1 hn) hnm

/-- Witness for C4: on the empty cache a conforming call with both side
effects exists, and on the fresh-hit cache the conforming result `rHit`
performs neither side effect. -/
theorem cache_get_side_effects_missing_or_stale_witness :
    (∃ r : CallResult Nat, cache_get_contract cEmpty 0 r
      ∧ r.usedNetwork = true ∧ r.enqueuedRefresh = true)
    ∧ (rHit.usedNetwork = false ∧ rHit.enqueuedRefresh = false) :=
  ⟨(cache_get_side_effects_missing_or_stale Nat Nat cEmpty 0).1 (Or.inl rfl),
   (cache_get_side_effects_missing_or_stale Nat Nat cFresh 0).2 ⟨7, true⟩
     rfl rfl rHit contract_cFresh⟩

/-- Claim C5: for every cache state and key the contract admits a conforming
call that takes internal locks and also a conforming call that takes none:
lock acquisition is permitted on every call, and callers may rely on no
stronger thread-safety guarantee than that locks may be taken. -/
theorem cache_get_locks_unconstrained (κ ν : Type) (c : CacheModel κ ν)
    (k : κ) :
    (∃ r, cache_get_contract c k r ∧ r.tookLocks = true)
    ∧ (∃ r, cache_get_contract c k r ∧ r.tookLocks = false) := by
  have h : ∀ b : Bool, ∃ r, cache_get_contract c k r ∧ r.tookLocks = b := by
    intro b
    cases he : c.entries k with
    | none =>
        exact ⟨⟨false, none, false, false, b, false⟩,
          contract_of_missingOrStale c k (Or.inl he) false false b, rfl⟩
    | some e =>
        cases hf : e.fresh with
        | false =>
            exact ⟨⟨false, none, false, false, b, false⟩,
              contract_of_missingOrStale c k (Or.inr ⟨e, he, hf⟩)
                false false b, rfl⟩
        | true =>
            exact ⟨⟨true, some e.value, false, false, b, false⟩,
              contract_of_found c k e he b, rfl⟩
  exact ⟨h true, h false⟩

/-- Claim C6: the header provides no implementation: every top-level
declaration is either a bare struct forward declaration without members or a
function prototype without body. Consequently `cache_get` has no defining
equation: the modelled contract does not determine the behaviour, as two
conforming results for the same cache and key can disagree on the returned
boolean. -/
theorem cache_header_no_implementation :
    cacheHeaderDecls.all
      (fun d => !(CDecl.hasBody d) && !(CDecl.hasMembers d)) = true
    ∧ ∃ (c : CacheModel Nat Nat) (k : Nat) (r1 r2 : CallResult Nat),
        cache_get_contract c k r1 ∧ cache_get_contract c k r2
        ∧ r1.ret ≠ r2.ret := by
  refine ⟨rfl, cEmpty, 0, ⟨false, none, false, false, false, false⟩,
    ⟨true, some 7, false, false, false, false⟩,
    contract_of_missingOrStale cEmpty 0 (Or.inl rfl) false false false,
    ?_, by simp⟩
  refine ⟨?_, fun h => Bool.noConfusion h, fun h => Bool.noConfusion h,
    by simp, fun h => Bool.noConfusion h⟩
  intro e he _
  exact Option.noConfusion he

/-- Counterexample to claim C7: the source does not contain two
character-for-character identical copies of the `cache_get` declaration
material. The declaration line occurs exactly once among the 18 lines of the
file, and exactly one function declaration is present, so the occurrence
count is not two. -/
theorem cache_header_duplication_counterexample :
    cacheHeaderLines.count cacheGetDeclLine = 1
    ∧ ¬(cacheHeaderLines.count cacheGetDeclLine = 2)
    ∧ (cacheHeaderDecls.filter CDecl.isFun).length = 1
    ∧ ¬((cacheHeaderDecls.filter CDecl.isFun).length = 2) := by
  refine ⟨by decide, by decide, rfl, by decide⟩

/-- Claim C7 amended: the source contains exactly one copy of the
`cache_get` declaration material, not two: the file has 18 lines, the
declaration line occurs once, and exactly one function declaration is
present. -/
theorem cache_header_single_copy :
    cacheHeaderLines.length = 18
    ∧ cacheHeaderLines.count cacheGetDeclLine = 1
    ∧ (cacheHeaderDecls.filter CDecl.isFun).length = 1 :=
  ⟨rfl, by decide, rfl⟩

/-- Counterexample to claim C8: the header is not a two-line declaration
accompanied only by documentation comments. The `cache_get` declaration
occupies exactly one line, and the header moreover contains three struct
forward declarations (for instance the line `struct Cache;`), which are
declarations rather than comments, so the material is not the function
declaration plus comments alone. -/
theorem cache_header_accompaniment_counterexample :
    "struct Cache;" ∈ cacheHeaderLines
    ∧ (cacheHeaderDecls.filter fun d => !(CDecl.isFun d)).length = 3
    ∧ ¬(cacheHeaderDecls = [CDecl.funDecl cacheGetSig none])
    ∧ cacheHeaderLines.count cacheGetDeclLine = 1 := by
  refine ⟨by decide, rfl, by decide, by decide⟩

/-- Claim C8 amended: the provided material is a short header whose
declarations are three opaque struct forward declarations and a one-line
prototype of the single function `cache_get`, the rest being documentation
comments and blank lines; nothing in it carries a definition (no member
lists, no function bodies), so no wire protocol, file format, CLI, or
persisted state is defined anywhere in it. -/
theorem cache_header_content :
    cacheHeaderLines.length = 18
    ∧ cacheHeaderDecls
        = [CDecl.structDecl "Cache" none, CDecl.structDecl "Key" none,
           CDecl.structDecl "Value" none, CDecl.funDecl cacheGetSig none]
    ∧ (cacheHeaderDecls.filter CDecl.isFun).length = 1
    ∧ cacheHeaderDecls.all
        (fun d => !(CDecl.hasBody d) && !(CDecl.hasMembers d)) = true :=
  ⟨rfl, rfl, rfl, rfl⟩

/-- Claim C9: the key parameter of `cache_get` is declared as a reference to
const (`const Key& k`), through which the callee may not write, and every
contract-conforming call leaves the key unwritten, so the key the caller
observes after the call is the key it passed in. -/
theorem cache_get_key_const_unmodified :
    cacheGetKParam.pname = "k"
    ∧ cacheGetKParam.ptype = CParamType.constRef "Key"
    ∧ paramWritable cacheGetKParam.ptype = false
    ∧ ∀ (κ ν : Type) (c : CacheModel κ ν) (k : κ) (r : CallResult ν),
        cache_get_contract c k r → r.wroteKey = false := by
  refine ⟨rfl, rfl, rfl, ?_⟩
  intro κ ν c k r hr
  cases hw : r.wroteKey
  · rfl
  · exact absurd (hr.2.2.2.2 hw) (by decide)

/-- Witness for C9: the conforming fresh-hit result `rHit` does not write
through the key reference. -/
theorem cache_get_key_const_unmodified_witness :
    rHit.wroteKey = false :=
  cache_get_key_const_unmodified.2.2.2 Nat Nat cFresh 0 rHit contract_cFresh

/-- Claim C10: the declared signature of `cache_get` places no type-level
precondition on its pointer parameters and gives no `noexcept` guarantee:
the `Cache*` and `Value*` parameter types admit null arguments, the
declaration carries no `noexcept` specifier, and so the signature does not
exclude an exceptional exit in addition to the boolean result. -/
theorem cache_get_no_typelevel_precondition :
    cacheGetCParam.ptype = CParamType.ptr "Cache"
    ∧ cacheGetOutParam.ptype = CParamType.ptr "Value"
    ∧ admitsNull cacheGetCParam.ptype = true
    ∧ admitsNull cacheGetOutParam.ptype = true
    ∧ cacheGetSig.noexceptSpec = false
    ∧ mayThrow cacheGetSig = true :=
  ⟨rfl, rfl, rfl, rfl, rfl, rfl⟩

end ProblemC
